import Mathlib

/-!
Shallow embedding of `quodlibet/player/vlcbe/player.py` (class `VLCPlayer`),
the VLC playback backend of quodlibet.

Modelling conventions:
* Python floats are modelled as exact rationals (`Rat`).
* The native VLC backend is modelled by a record per `MediaPlayer` /
  equalizer handle, plus an event trace: every call into the backend and
  every GObject signal emission (`emit`) is recorded as an `Ev` value, so
  theorems can speak about which backend primitives were invoked and in
  which order signals were delivered.
* Songs are identified by their uri, modelled as a `Nat`.
* Handles to native objects are `Nat` identifiers; the player state carries
  a fresh-handle counter, so object identity (reuse vs. recreate) is
  observable.
-/

namespace VLCBE

/-- The `vlc.State` enumeration of libvlc (the states the code inspects,
plus the remaining members of the enum). -/
inductive VState where
  | NothingSpecial
  | Opening
  | Buffering
  | Playing
  | Paused
  | Stopped
  | Ended
  | Error
deriving DecidableEq, Repr

/-- Model of a native `vlc.MediaPlayer` object. `handle` is the object's
identity; the remaining fields model what the backend reports through
`get_state`, `can_pause`, `get_position`, `get_length`, `is_seekable`,
`audio_get_mute`. -/
structure MediaPlayer where
  handle : Nat
  mrl : Nat
  state : VState
  canPause : Bool
  seekable : Bool
  position : Rat
  length : Int
  muted : Int
deriving DecidableEq, Repr

/-- Model of a native equalizer object (`libvlc_audio_equalizer_*`). -/
structure VLCEq where
  handle : Nat
deriving DecidableEq, Repr

/-- Backend calls and GObject signal emissions, in order of occurrence.
`songEnded` records, besides the signal arguments, the value of
`self.song` at the moment the signal is emitted (what a handler reading
the current song would observe). -/
inductive Ev where
  | paused
  | unpaused
  | songStarted (song : Option Nat)
  | songEnded (song : Option Nat) (stopped : Bool) (observedCurrent : Option Nat)
  | seekEmit (song : Option Nat) (pos : Int)
  | notifySeekable
  | setPause (h : Nat) (b : Bool)
  | setPosition (h : Nat) (p : Rat)
  | audioSetVolume (h : Nat) (v : Int)
  | audioSetMute (h : Nat) (b : Bool)
  | releaseMp (h : Nat)
  | stopMp (h : Nat)
  | playMp (h : Nat)
  | setMrl (h : Nat) (uri : Nat)
  | newMediaPlayer (h : Nat) (uri : Nat)
  | setEqualizer (h : Nat) (eq : Nat)
  | releaseEq (h : Option Nat)
  | newEqFromPreset (preset : Nat) (h : Nat)
  | setAmpAtIndex (eq : Nat) (val : Rat) (band : Nat)
  | setPreamp (eq : Nat) (val : Rat)
  | nextEnded
deriving DecidableEq, Repr

/-- Modelled from the spec: the external song source collaborator (playlist
ordering policy is out of scope, delegated to a "source"). Modelled as the
queue of remaining songs: `current` is the head; `next_ended` tells the
source the current item ended, advancing it to the next item. -/
abbrev Source := List Nat

def Source.current (src : Source) : Option Nat := src.head?

def Source.next_ended (src : Source) : Source := src.tail

/-- The state of a `VLCPlayer` instance: the class attributes of the Python
object, the modelled source collaborator, the replaygain factor, and a
fresh-handle counter for native object identities. -/
structure PState where
  paused : Bool := true
  vlcmp : Option MediaPlayer := none
  vlceq : Option VLCEq := none
  eq_preamp : Rat := 0
  volume : Rat := 1
  seekOnPlay : Option Int := none
  song : Option Nat := none
  info : Option Nat := none
  source : Source := []
  eq_values : List Rat := []
  rgScale : Rat := 1
  nextHandle : Nat := 0
deriving DecidableEq, Repr

/-- Python `int()` applied to a rational: truncation toward zero. -/
def pyInt (q : Rat) : Int :=
  (if q.num < 0 then -1 else 1) * Int.ofNat (q.num.natAbs / q.den)

/-! ### Backend model: `vlc.MediaPlayer` primitives -/

/-- Backend `set_pause(b)`: pauses a playing (pausable) player, resumes a
paused one; no effect in other states. -/
def MediaPlayer.set_pause (mp : MediaPlayer) (b : Bool) : MediaPlayer :=
  if b then
    if mp.state = VState.Playing ∧ mp.canPause then { mp with state := VState.Paused }
    else mp
  else
    if mp.state = VState.Paused then { mp with state := VState.Playing }
    else mp

/-- Backend `play()` is asynchronous: it resumes a paused player; on a player that
is not already playing it merely begins opening the media — `get_state()`
does not report `Playing` until the backend's "playing" event fires. -/
def MediaPlayer.play (mp : MediaPlayer) : MediaPlayer :=
  if mp.state = VState.Playing then mp
  else if mp.state = VState.Paused then { mp with state := VState.Playing }
  else { mp with state := VState.Opening }

/-- Backend `stop()`: the player returns to the stopped state. -/
def MediaPlayer.stop_ (mp : MediaPlayer) : MediaPlayer :=
  { mp with state := VState.Stopped, position := 0 }

/-- Backend `set_position(p)`: sets the fractional playback position. -/
def MediaPlayer.set_position (mp : MediaPlayer) (p : Rat) : MediaPlayer :=
  { mp with position := p }

/-- Backend `set_mrl(uri)`: points the existing player object at a new media item. -/
def MediaPlayer.set_mrl (mp : MediaPlayer) (uri : Nat) : MediaPlayer :=
  { mp with mrl := uri }

/-- Constructor `vlc.MediaPlayer(uri)`: a freshly constructed player for `uri`. -/
def MediaPlayer.new (h : Nat) (uri : Nat) : MediaPlayer :=
  { handle := h, mrl := uri, state := VState.NothingSpecial, canPause := true,
    seekable := false, position := 0, length := 0, muted := 0 }

/-! ### `VLCPlayer` operations

Each operation returns the updated player state together with the trace of
backend calls and signal emissions it performed. -/

/-- The `VLCPlayer.paused` property setter. -/
def PState.paused_set (s : PState) (state0 : Bool) : PState × List Ev :=
  -- Detect if pause is not possible and alter the action accordingly:
  -- `if self._vlcmp is None or self._vlcmp.can_pause() == 0: state = True`
  let st := match s.vlcmp with
    | none => true
    | some mp => if mp.canPause = false then true else state0
  -- Change the internal tracking
  let prev := s.paused
  let s1 := { s with paused := st }
  -- Only emit a signal if the pause state changed
  let evs := if st ≠ prev then [if st then Ev.paused else Ev.unpaused] else []
  -- No matter what happens, set VLC to the current tracked pause state,
  -- but only if the vlc object exists; if there is no player object, by
  -- definition we are paused.
  match s1.vlcmp with
  | some mp =>
      ({ s1 with vlcmp := some (mp.set_pause s1.paused) },
       evs ++ [Ev.setPause mp.handle s1.paused])
  | none => ({ s1 with paused := true }, evs)

/-- A sequence of assignments to the `paused` property (the states reached
by repeated `pause(b)` calls). -/
def PState.pause_seq (s : PState) (reqs : List Bool) : PState :=
  reqs.foldl (fun st b => (st.paused_set b).1) s

/-- The GObject property names the code dispatches on (`property.name`);
`other` stands for every unrecognized name. -/
inductive GProp where
  | volume
  | seekable
  | mute
  | other
deriving DecidableEq, Repr

/-- A GObject property value. -/
inductive PropVal where
  | ofRat (q : Rat)
  | ofBool (b : Bool)
deriving DecidableEq, Repr

/-- The dict `muteStates = {-1: False, 0: False, 1: True}` applied to the
backend's `audio_get_mute()` result. -/
def muteStates (i : Int) : Bool := i == 1

/-- The `do_get_property` handler; `raise AttributeError` is modelled as
`Except.error ()`. -/
def PState.do_get_property (s : PState) (p : GProp) : Except Unit PropVal :=
  match p with
  | GProp.volume => Except.ok (PropVal.ofRat s.volume)
  | GProp.seekable =>
      if s.song = none then Except.ok (PropVal.ofBool false)
      else Except.ok (PropVal.ofBool true)
  | GProp.mute =>
      match s.vlcmp with
      | some mp => Except.ok (PropVal.ofBool (muteStates mp.muted))
      | none => Except.ok (PropVal.ofBool false)
  | GProp.other => Except.error ()

/-- Modelled from the spec: `BasePlayer.calc_replaygain_volume` is not under
src/. Per the spec, `applyReplaygain` scales the volume by a per-track
replaygain factor supplied by the current track's metadata, with identity
scaling when metadata is absent; the factor is the `rgScale` state field. -/
def PState.calc_replaygain_volume (s : PState) (v : Rat) : Rat := s.rgScale * v

/-- The `do_set_property` handler (property values are well-typed here;
`raise AttributeError` is modelled as `Except.error ()`). -/
def PState.do_set_property (s : PState) (p : GProp) (v : PropVal) :
    Except Unit (PState × List Ev) :=
  match p, v with
  | GProp.volume, PropVal.ofRat q =>
      let s1 := { s with volume := q }
      match s1.vlcmp with
      | some mp =>
          -- v = self.calc_replaygain_volume(v); v = min(100, int(v * 100))
          let v1 := s1.calc_replaygain_volume q
          let v2 := min 100 (pyInt (v1 * 100))
          Except.ok (s1, [Ev.audioSetVolume mp.handle v2])
      | none => Except.ok (s1, [])
  | GProp.mute, PropVal.ofBool b =>
      match s.vlcmp with
      | some mp => Except.ok (s, [Ev.audioSetMute mp.handle b])
      | none => Except.ok (s, [])
  | _, _ => Except.error ()

/-- The `VLCPlayer._play(seek=None)` method. The call `self.song("~uri")`
requires a current song (every `_play` call site guarantees one; a missing
song would raise in Python), modelled with `Option.getD`. -/
def PState.play_ (s : PState) (seek : Option Int) : PState × List Ev :=
  let uri := s.song.getD 0
  match s.vlcmp with
  | none =>
      -- Create the new media player for the current song; connect events;
      -- set up the equalizer, if one exists.
      let mp := MediaPlayer.new s.nextHandle uri
      let evs := [Ev.newMediaPlayer mp.handle uri] ++
        (match s.vlceq with
         | some e => [Ev.setEqualizer mp.handle e.handle]
         | none => [])
      -- Save the seek location, then start the media playing.
      let s1 := { s with
        vlcmp := some mp.play,
        nextHandle := s.nextHandle + 1,
        seekOnPlay := seek }
      (s1, evs ++ [Ev.playMp mp.handle])
  | some mp =>
      -- Reuse the existing media player
      let mp1 := mp.set_mrl uri
      let s1 := { s with vlcmp := some mp1.play, seekOnPlay := seek }
      (s1, [Ev.setMrl mp.handle uri, Ev.playMp mp.handle])

/-- The `VLCPlayer._stop` method: release the player, but only if actively
playing; remove the references to the player. -/
def PState.stop_ (s : PState) : PState × List Ev :=
  match s.vlcmp with
  | none => (s, [])
  | some mp =>
      let evs := if mp.state = VState.Playing ∨ mp.state = VState.Paused
                 then [Ev.releaseMp mp.handle] else []
      ({ s with vlcmp := none }, evs)

/-- The `VLCPlayer.seek(position)` method. The code has two textually
identical branches for `Paused` and `Playing`; they are merged into one
disjunction here. -/
def PState.seek (s : PState) (position : Int) : PState × List Ev :=
  match s.vlcmp with
  | some mp =>
      if mp.state = VState.Paused ∨ mp.state = VState.Playing then
        let frac := (position : Rat) / (mp.length : Rat)
        ({ s with vlcmp := some (mp.set_position frac) },
         [Ev.setPosition mp.handle frac, Ev.seekEmit s.song position])
      else
        -- VLC can only seek while playing, so store the seek value for
        -- later and tell VLC to start playing.
        let mp1 := mp.stop_
        ({ s with vlcmp := some mp1.play, seekOnPlay := some position },
         [Ev.stopMp mp.handle, Ev.playMp mp.handle])
  | none =>
      if s.song.isSome then s.play_ (some position) else (s, [])

/-- Modelled from the spec: `BasePlayer.stop` is not under src/ (only its
override `VLCPlayer.stop` is). Per the spec and the in-src docstring it
stops playback and resets the position: it sets `paused` to true and
seeks to 0. -/
def PState.base_stop (s : PState) : PState × List Ev :=
  let p1 := s.paused_set true
  let p2 := p1.1.seek 0
  (p2.1, p1.2 ++ p2.2)

/-- The `VLCPlayer.stop` method: `super().stop()` then `self._stop()`. -/
def PState.stop (s : PState) : PState × List Ev :=
  let p1 := s.base_stop
  let p2 := p1.1.stop_
  (p2.1, p1.2 ++ p2.2)

/-- The `VLCPlayer.get_position` method. -/
def PState.get_position (s : PState) : Int :=
  match s.vlcmp with
  | some mp =>
      if mp.state ∈ [VState.Playing, VState.Paused] then
        pyInt (mp.position * (mp.length : Rat))
      else 0
  | none => 0

/-- The `VLCPlayer.update_eq_values` method. -/
def PState.update_eq_values (s : PState) : PState × List Ev :=
  -- Always release any previous equalizer, if it exists
  let relEv := Ev.releaseEq (s.vlceq.map VLCEq.handle)
  -- Always start from a flat equalizer (preset 0)
  let eq1 : VLCEq := { handle := s.nextHandle }
  let s1 := { s with vlceq := some eq1, nextHandle := s.nextHandle + 1 }
  -- Only configure the equalizer if there are non-zero values
  -- (`if any(self._eq_values)`), otherwise the VLC defaults will be used
  let bandEvs :=
    if s1.eq_values.any (fun v => v != 0) then
      s1.eq_values.enum.map (fun p => Ev.setAmpAtIndex eq1.handle p.2 p.1)
    else []
  -- Set the equalizer if the media player exists
  let attachEvs := match s1.vlcmp with
    | some mp => [Ev.setEqualizer mp.handle eq1.handle]
    | none => []
  (s1, [relEv, Ev.newEqFromPreset 0 eq1.handle] ++ bandEvs ++ attachEvs)

/-- The `VLCPlayer.eq_preamp` property setter. -/
def PState.eq_preamp_set (s : PState) (value : Rat) : PState × List Ev :=
  let s1 := { s with eq_preamp := value }
  match s1.vlceq with
  | some e => (s1, [Ev.setPreamp e.handle value])
  | none => (s1, [])

/-- The `VLCPlayer._end(stopped, next_song=None)` method. -/
def PState.end_ (s : PState) (stopped : Bool) (next_song : Option Nat) :
    PState × List Ev :=
  let song := s.song
  let info := s.info
  -- We need to set self.song to None before calling our signal handlers.
  let s1 := { s with song := none, info := none }
  let endEvs :=
    (if song ≠ info then [Ev.songEnded info stopped s1.song] else []) ++
    [Ev.songEnded song stopped s1.song]
  let current := match next_song with
    | some ns => some ns
    | none => s1.source.current
  -- Then, set up the next song.
  let s2 := { s1 with song := current, info := current }
  match current with
  | some _ => ((s2.play_ none).1, endEvs ++ (s2.play_ none).2)
  | none => ((s2.stop_).1, endEvs ++ (s2.stop_).2)

/-- The `VLCPlayer._event_playing_sync` handler (runs with a live player;
a missing player under a pending seek would raise in Python, modelled by
falling through without seeking). -/
def PState.event_playing_sync (s : PState) : PState × List Ev :=
  -- Set the current pause state in the player to align with the current
  -- requested pause state
  let p1 := if s.paused then s.paused_set s.paused else (s, [])
  let s1 := p1.1
  let evs1 := p1.2
  -- Notify the rest of the application of the state change
  let evs2 := [Ev.songStarted s1.song, Ev.notifySeekable]
  match s1.seekOnPlay, s1.vlcmp with
  | some pos, some mp =>
      if mp.seekable then
        let frac := (pos : Rat) / (mp.length : Rat)
        ({ s1 with vlcmp := some (mp.set_position frac), seekOnPlay := none },
         evs1 ++ evs2 ++ [Ev.setPosition mp.handle frac, Ev.seekEmit s1.song pos])
      else (s1, evs1 ++ evs2)
  | _, _ => (s1, evs1 ++ evs2)

/-- The `VLCPlayer._event_ended_sync` handler: destroy the old media player,
tell the source that the song ended, start the next song. -/
def PState.event_ended_sync (s : PState) : PState × List Ev :=
  let p1 := s.stop_
  let s2 := { p1.1 with source := p1.1.source.next_ended }
  let p3 := s2.end_ false none
  (p3.1, p1.2 ++ [Ev.nextEnded] ++ p3.2)

/-- The complete end-of-song sequence: the bridged "end-reached" handler
followed by the bridged "playing" handler that fires once the next song's
`play()` takes effect. -/
def PState.endOfSongSequence (s : PState) : PState × List Ev :=
  let p1 := s.event_ended_sync
  let p2 := p1.1.event_playing_sync
  (p2.1, p1.2 ++ p2.2)

/-! ### Derived observations used by the theorems -/

/-- The `paused`/`unpaused` signal emissions contained in a trace. -/
def pauseSignals (evs : List Ev) : List Ev :=
  evs.filter fun e => match e with
    | Ev.paused => true
    | Ev.unpaused => true
    | _ => false

/-- Whether a trace contains a release of a native media player. -/
def hasRelease (evs : List Ev) : Bool :=
  evs.any fun e => match e with
    | Ev.releaseMp _ => true
    | _ => false

/-- The effective requested pause state of a `pause(b)` call: the request
is forced to `true` when no session exists or the backend reports it
cannot pause. -/
def PState.effPause (s : PState) (b : Bool) : Bool :=
  match s.vlcmp with
  | none => true
  | some mp => if mp.canPause = false then true else b

/-! ### Helper lemmas -/

theorem paused_set_no_session (s : PState) (b : Bool) (hmp : s.vlcmp = none) :
    (s.paused_set b).1.paused = true ∧ (s.paused_set b).1.vlcmp = none := by
  simp [PState.paused_set, hmp]

theorem pause_seq_ne_nil (reqs : List Bool) : ∀ s : PState, s.vlcmp = none →
    reqs ≠ [] →
    (s.pause_seq reqs).paused = true ∧ (s.pause_seq reqs).vlcmp = none := by
  induction reqs with
  | nil => intro s _ hne; cases hne rfl
  | cons b rest ih =>
      intro s hmp _
      have hstep := paused_set_no_session s b hmp
      show ((s.paused_set b).1.pause_seq rest).paused = true ∧
           ((s.paused_set b).1.pause_seq rest).vlcmp = none
      cases rest with
      | nil => exact hstep
      | cons c cs => exact ih _ hstep.2 (by simp)

/-! ### Claims -/

/-- C4: for every sequence of `pause(true)` / `pause(false)` calls made
while no session exists, the tracked pause flag equals `true` after each
call returns. (Every such sequence stays sessionless, so quantifying over
all nonempty call sequences covers the flag after each individual call.) -/
theorem pause_no_session_always_paused (s : PState) (reqs : List Bool)
    (hmp : s.vlcmp = none) (hne : reqs ≠ []) :
    (s.pause_seq reqs).paused = true :=
  (pause_seq_ne_nil reqs s hmp hne).1

/-- C4 witness: a concrete sessionless pause sequence ends paused. -/
theorem pause_no_session_always_paused_witness :
    (PState.pause_seq { vlcmp := none } [false, false, true, false]).paused = true :=
  pause_no_session_always_paused { vlcmp := none } [false, false, true, false]
    rfl (by simp)

/-- C5: a `paused`/`unpaused` signal is emitted exactly once per actual
change of the tracked pause flag: when the effective requested state equals
the previously tracked flag nothing is emitted, and when it differs exactly
one signal matching the new flag is emitted. -/
theorem paused_set_signals_iff_transition (s : PState) (b : Bool) :
    pauseSignals (s.paused_set b).2 =
      (if s.effPause b = s.paused then []
       else [if s.effPause b then Ev.paused else Ev.unpaused]) := by
  rcases hv : s.vlcmp with _ | mp
  · rcases hb : s.paused <;>
      simp [PState.paused_set, PState.effPause, pauseSignals, hv, hb]
  · rcases hcp : mp.canPause <;> rcases hb : s.paused <;> rcases b <;>
      simp [PState.paused_set, PState.effPause, pauseSignals, hv, hcp, hb]

/-- C7: for every `seek(positionMs)` call made while a session exists and
the backend reports `Paused` or `Playing`, the tracked play/pause flag is
unchanged; the call only applies the fractional position and emits a
`seek` signal. -/
theorem seek_preserves_paused_flag (s : PState) (mp : MediaPlayer) (pos : Int)
    (hmp : s.vlcmp = some mp)
    (hst : mp.state = VState.Paused ∨ mp.state = VState.Playing) :
    (s.seek pos).1.paused = s.paused ∧
    (s.seek pos).2 = [Ev.setPosition mp.handle ((pos : Rat) / (mp.length : Rat)),
                      Ev.seekEmit s.song pos] := by
  simp only [PState.seek, hmp]
  rw [if_pos hst]
  exact ⟨rfl, rfl⟩

/-- A playing media player at fraction 1/3 of a 9000 ms track, used by the
concrete witnesses for C7. -/
def c7Mp : MediaPlayer :=
  { handle := 0, mrl := 7, state := VState.Playing, canPause := true,
    seekable := true, position := (1:Rat)/3, length := 9000, muted := 0 }

/-- An unpaused player state with the session `c7Mp`. -/
def c7State : PState :=
  { vlcmp := some c7Mp, paused := false, song := some 7 }

/-- C7 witness: seeking a playing session keeps the flag and emits a seek. -/
theorem seek_preserves_paused_flag_witness :
    (c7State.seek 4500).1.paused = false ∧
    (c7State.seek 4500).2 =
      [Ev.setPosition c7Mp.handle (((4500 : Int) : Rat) / ((c7Mp.length : Int) : Rat)),
       Ev.seekEmit (some 7) 4500] := by
  have h := seek_preserves_paused_flag c7State c7Mp 4500 rfl (Or.inr rfl)
  exact ⟨h.1, h.2⟩

/-- C9: `get_position` returns 0 whenever no session exists or the backend
reports a state other than `Playing` or `Paused`; only in `Playing` or
`Paused` does it return the backend's fractional position multiplied by
the media length, truncated to an integer. -/
theorem get_position_zero_unless_active :
    (∀ s : PState, s.vlcmp = none → s.get_position = 0) ∧
    (∀ (s : PState) (mp : MediaPlayer), s.vlcmp = some mp →
      mp.state ≠ VState.Playing → mp.state ≠ VState.Paused → s.get_position = 0) ∧
    (∀ (s : PState) (mp : MediaPlayer), s.vlcmp = some mp →
      (mp.state = VState.Playing ∨ mp.state = VState.Paused) →
      s.get_position = pyInt (mp.position * (mp.length : Rat))) := by
  refine ⟨?_, ?_, ?_⟩
  · intro s h
    simp [PState.get_position, h]
  · intro s mp h h1 h2
    simp [PState.get_position, h, h1, h2]
  · intro s mp h hst
    simp only [PState.get_position, h]
    rw [if_pos (by simpa using hst)]

/-- A playing media player at fraction 1/3 of a 9000 ms track, used by the
concrete witness for C9. -/
def c9Mp : MediaPlayer :=
  { handle := 0, mrl := 7, state := VState.Playing, canPause := true,
    seekable := true, position := (1:Rat)/3, length := 9000, muted := 0 }

/-- A player state with the session `c9Mp`. -/
def c9State : PState := { vlcmp := some c9Mp }

/-- C9 witness: a playing session at fraction 1/3 of 9000 ms reports
position 3000 ms. -/
theorem get_position_zero_unless_active_witness :
    c9State.get_position = 3000 := by
  have h := get_position_zero_unless_active.2.2 c9State c9Mp rfl (Or.inl rfl)
  rw [h]
  norm_num [pyInt, c9Mp]

/-- C10: the public `seekable` property returns true exactly when a current
song is set; the computation never consults the backend's seekability or
the session, so in particular it reports true for a state holding a song
but no session. -/
theorem seekable_iff_song_set :
    (∀ s : PState, s.do_get_property GProp.seekable =
        Except.ok (PropVal.ofBool s.song.isSome)) ∧
    PState.do_get_property { song := some 5, vlcmp := none } GProp.seekable =
      Except.ok (PropVal.ofBool true) := by
  constructor
  · intro s
    rcases h : s.song <;> simp [PState.do_get_property, h]
  · rfl

/-- A playing media player (handle 0, old media uri 7), used by the
concrete scenario of C1. -/
def c1Mp : MediaPlayer :=
  { handle := 0, mrl := 7, state := VState.Playing, canPause := true,
    seekable := true, position := 0, length := 9000, muted := 0 }

/-- The concrete scenario for C1: a native player already exists and a play
of song 42 has been requested (the current song is already the new one when
`_play` runs). -/
def c1State : PState :=
  { vlcmp := some c1Mp, song := some 42, nextHandle := 1 }

/-- C1 counterexample: calling `_play` while a native player already exists
does not destroy it and does not create a fresh one — the resulting player
has the same handle 0, and the complete backend trace is just `set_mrl`
followed by `play`: no construction and no release occurs, refuting the
claimed destroy-and-recreate policy. -/
theorem play_reuses_existing_player_cex :
    ((c1State.play_ none).1.vlcmp.map MediaPlayer.handle = some 0) ∧
    ((c1State.play_ none).2 = [Ev.setMrl 0 42, Ev.playMp 0]) ∧
    (((c1State.play_ none).2.all fun e => match e with
      | Ev.newMediaPlayer _ _ => false
      | Ev.releaseMp _ => false
      | _ => true) = true) := by
  refine ⟨rfl, rfl, rfl⟩

/-- C1 amended: for every call to `_play` when a native player already
exists, the controller reuses that player object for the new media item —
it sets the new item's uri on the existing player (`set_mrl`) and issues
`play`; it neither constructs a new native player nor releases the
existing one, and the fresh-handle counter is unchanged. (Only the
end-of-song path destroys the player first, via `_stop` in
`_event_ended_sync`, so a fresh player is created there.) -/
theorem play_preserves_handle (mp : MediaPlayer) : (mp.play).handle = mp.handle := by
  simp only [MediaPlayer.play]
  split_ifs <;> rfl

theorem play_with_existing_player_reuses (s : PState) (mp : MediaPlayer)
    (seek : Option Int) (hmp : s.vlcmp = some mp) :
    ((s.play_ seek).1.vlcmp.map MediaPlayer.handle = some mp.handle) ∧
    ((s.play_ seek).2 = [Ev.setMrl mp.handle (s.song.getD 0), Ev.playMp mp.handle]) ∧
    ((s.play_ seek).1.nextHandle = s.nextHandle) := by
  simp [PState.play_, hmp, play_preserves_handle, MediaPlayer.set_mrl]

/-- C1 witness for the amended claim, at the concrete scenario `c1State`. -/
theorem play_with_existing_player_reuses_witness :
    ((c1State.play_ none).1.vlcmp.map MediaPlayer.handle = some c1Mp.handle) ∧
    ((c1State.play_ none).2 =
      [Ev.setMrl c1Mp.handle (c1State.song.getD 0), Ev.playMp c1Mp.handle]) ∧
    ((c1State.play_ none).1.nextHandle = c1State.nextHandle) :=
  play_with_existing_player_reuses c1State c1Mp none rfl

/-- The concrete scenario for C2: three all-zero band gains and a stored
preamp of 5 dB, no session, no previous equalizer handle. -/
def c2State : PState := { eq_values := [0, 0, 0], eq_preamp := 5 }

/-- A state with an existing native equalizer handle, used to exercise the
`eq_preamp` setter part of C2's amended claim. -/
def c2StateB : PState := { eq_values := [0, 0], vlceq := some { handle := 3 } }

/-- C2 counterexample: applying equalizer values with all-zero gains does
allocate a fresh native equalizer (preset 0), but the complete backend
trace is release-old, new-from-preset-0: it contains no `set_preamp`
call, so the stored preamp (here 5) is not applied to the newly allocated
handle — refuting the claim's "still applies the stored preamp" half. -/
theorem update_eq_values_zero_gains_cex :
    ((c2State.update_eq_values).2 = [Ev.releaseEq none, Ev.newEqFromPreset 0 0]) ∧
    (((c2State.update_eq_values).2.all fun e => match e with
      | Ev.setPreamp _ _ => false
      | _ => true) = true) ∧
    c2State.eq_preamp = 5 := by
  refine ⟨rfl, rfl, rfl⟩

/-- C2 amended: for every gain sequence consisting only of zeros, applying
equalizer values leaves the backend's per-band defaults untouched (no band
is set individually) and does not apply the stored preamp to the newly
allocated native equalizer handle either (no preamp call at all); the
stored preamp reaches the backend only through the `eq_preamp` setter,
which pushes it exactly when a native equalizer handle exists. -/
theorem update_eq_values_zero_gains (s : PState)
    (hz : s.eq_values.all (fun v => v == 0) = true) :
    (((s.update_eq_values).2.all fun e => match e with
       | Ev.setAmpAtIndex _ _ _ => false
       | Ev.setPreamp _ _ => false
       | _ => true) = true) ∧
    ((s.update_eq_values).1.vlceq = some { handle := s.nextHandle }) ∧
    (∀ (v : Rat) (e : VLCEq), s.vlceq = some e →
      (s.eq_preamp_set v).2 = [Ev.setPreamp e.handle v]) := by
  have hany : s.eq_values.any (fun v => v != 0) = false := by
    rw [List.any_eq_false]
    intro x hx
    have h0 := List.all_eq_true.mp hz x hx
    simp only [beq_iff_eq] at h0
    simp [h0]
  refine ⟨?_, ?_, ?_⟩
  · rcases hv : s.vlcmp with _ | mp <;>
      simp [PState.update_eq_values, hany, hv]
  · simp [PState.update_eq_values]
  · intro v e he
    simp [PState.eq_preamp_set, he]

/-- C2 witness for the amended claim: the all-zero scenario emits no band
or preamp calls, and the `eq_preamp` setter pushes the value when a native
handle exists. -/
theorem update_eq_values_zero_gains_witness :
    (((c2State.update_eq_values).2.all fun e => match e with
       | Ev.setAmpAtIndex _ _ _ => false
       | Ev.setPreamp _ _ => false
       | _ => true) = true) ∧
    ((c2State.update_eq_values).1.vlceq = some { handle := 0 }) ∧
    (c2StateB.eq_preamp_set 5).2 = [Ev.setPreamp 3 5] := by
  have h1 := update_eq_values_zero_gains c2State (by decide)
  have h2 := update_eq_values_zero_gains c2StateB (by decide)
  exact ⟨h1.1, h1.2.1, h2.2.2 5 { handle := 3 } rfl⟩

/-- A playing media player, used by the concrete scenario of C3. -/
def c3Mp : MediaPlayer :=
  { handle := 0, mrl := 7, state := VState.Playing, canPause := true,
    seekable := true, position := 0, length := 9000, muted := 0 }

/-- The concrete scenario for C3: an active session, identity replaygain. -/
def c3State : PState := { vlcmp := some c3Mp }

/-- The native volume value the claim specifies:
`clamp(round(applyReplaygain(v) * 100), 0, 100)`. -/
def claimedNativeVolume (s : PState) (v : Rat) : Int :=
  max 0 (min 100 (round (s.calc_replaygain_volume v * 100)))

/-- C3 counterexample: with an active session, identity replaygain and
normalized volume `v = 507/1000`, the code pushes
`min(100, int(0.507 * 100)) = 50` to the backend, while the claim's
`clamp(round(50.7), 0, 100)` is `51`. -/
theorem set_volume_truncates_cex :
    ((c3State.do_set_property GProp.volume
        (PropVal.ofRat ((507 : Rat)/1000))).toOption.map Prod.snd =
      some [Ev.audioSetVolume 0 50]) ∧
    claimedNativeVolume c3State ((507 : Rat)/1000) = 51 := by
  constructor
  · simp only [PState.do_set_property, c3State, c3Mp, PState.calc_replaygain_volume,
      Except.toOption, Option.map]
    norm_num [pyInt]
  · norm_num [claimedNativeVolume, PState.calc_replaygain_volume, c3State, round_eq]

/-- C3 amended: for every normalized volume `v` set while a session is
active, the value pushed to the backend equals
`min(100, int(applyReplaygain(v) * 100))` — the replaygain-scaled value
times 100 is truncated toward zero (not rounded to nearest) and clamped
only at the upper bound 100 (there is no explicit lower clamp); the stored
normalized volume becomes `v`. -/
theorem set_volume_truncates_min100 (s : PState) (mp : MediaPlayer) (v : Rat)
    (hmp : s.vlcmp = some mp) :
    ((s.do_set_property GProp.volume (PropVal.ofRat v)).toOption.map Prod.snd =
      some [Ev.audioSetVolume mp.handle
        (min 100 (pyInt (s.calc_replaygain_volume v * 100)))]) ∧
    ((s.do_set_property GProp.volume (PropVal.ofRat v)).toOption.map
        (fun p => p.1.volume) = some v) := by
  constructor <;>
    simp [PState.do_set_property, hmp, PState.calc_replaygain_volume,
      Except.toOption]

/-- C3 witness for the amended claim, at the concrete scenario `c3State`
with `v = 507/1000`: the pushed value is the truncated-and-min-clamped 50. -/
theorem set_volume_truncates_min100_witness :
    ((c3State.do_set_property GProp.volume
        (PropVal.ofRat ((507 : Rat)/1000))).toOption.map Prod.snd =
      some [Ev.audioSetVolume c3Mp.handle
        (min 100 (pyInt (c3State.calc_replaygain_volume ((507 : Rat)/1000) * 100)))]) ∧
    ((c3State.do_set_property GProp.volume
        (PropVal.ofRat ((507 : Rat)/1000))).toOption.map
        (fun p => p.1.volume) = some ((507 : Rat)/1000)) :=
  set_volume_truncates_min100 c3State c3Mp ((507 : Rat)/1000) rfl

/-! ### Helper lemmas for the `stop` claim -/

theorem hasRelease_append (l1 l2 : List Ev) :
    hasRelease (l1 ++ l2) = (hasRelease l1 || hasRelease l2) := by
  simp [hasRelease, List.any_append]

theorem play_no_release (s : PState) (sk : Option Int) :
    hasRelease (s.play_ sk).2 = false := by
  rcases h : s.vlcmp with _ | mp
  · rcases hq : s.vlceq with _ | e <;> simp [PState.play_, h, hq, hasRelease]
  · simp [PState.play_, h, hasRelease]

theorem paused_set_no_release (s : PState) (b : Bool) :
    hasRelease (s.paused_set b).2 = false := by
  rcases h : s.vlcmp with _ | mp <;>
    · simp only [PState.paused_set, h]
      split_ifs <;> simp [hasRelease]

theorem seek_no_release (s : PState) (pos : Int) :
    hasRelease (s.seek pos).2 = false := by
  rcases h : s.vlcmp with _ | mp
  · rcases hs : s.song with _ | u
    · simp [PState.seek, h, hs, hasRelease]
    · simp [PState.seek, h, hs, play_no_release]
  · simp only [PState.seek, h]
    split_ifs <;> simp [hasRelease]

theorem base_stop_no_release (s : PState) :
    hasRelease (s.base_stop).2 = false := by
  show hasRelease ((s.paused_set true).2 ++ ((s.paused_set true).1.seek 0).2) = false
  rw [hasRelease_append, paused_set_no_release, seek_no_release]
  rfl

theorem stop_clears_session (s : PState) : (s.stop_).1.vlcmp = none := by
  rcases h : s.vlcmp with _ | mp <;> simp [PState.stop_, h]

theorem stop_release_trace (s : PState) (mp : MediaPlayer) (hmp : s.vlcmp = some mp) :
    (s.stop_).2 = if mp.state = VState.Playing ∨ mp.state = VState.Paused
                  then [Ev.releaseMp mp.handle] else [] := by
  simp [PState.stop_, hmp]

theorem set_pause_handle (mp : MediaPlayer) (b : Bool) :
    (mp.set_pause b).handle = mp.handle := by
  simp only [MediaPlayer.set_pause]
  split_ifs <;> rfl

theorem set_pause_true_active_iff (mp : MediaPlayer) :
    ((mp.set_pause true).state = VState.Playing ∨
      (mp.set_pause true).state = VState.Paused) ↔
      (mp.state = VState.Playing ∨ mp.state = VState.Paused) := by
  simp only [MediaPlayer.set_pause]
  split_ifs with h1 h2 <;> simp_all

theorem base_stop_session (s : PState) (mp : MediaPlayer) (hmp : s.vlcmp = some mp) :
    ∃ mp', (s.base_stop).1.vlcmp = some mp' ∧ mp'.handle = mp.handle ∧
      ((mp'.state = VState.Playing ∨ mp'.state = VState.Paused) ↔
       (mp.state = VState.Playing ∨ mp.state = VState.Paused)) := by
  have h1 : (s.paused_set true).1.vlcmp = some (mp.set_pause true) := by
    simp [PState.paused_set, hmp]
  show ∃ mp', ((s.paused_set true).1.seek 0).1.vlcmp = some mp' ∧ _ ∧ _
  simp only [PState.seek, h1]
  by_cases hc : (mp.set_pause true).state = VState.Paused ∨
      (mp.set_pause true).state = VState.Playing
  · rw [if_pos hc]
    refine ⟨_, rfl, ?_, ?_⟩
    · simp [MediaPlayer.set_position, set_pause_handle]
    · simpa [MediaPlayer.set_position] using set_pause_true_active_iff mp
  · rw [if_neg hc]
    refine ⟨_, rfl, ?_, ?_⟩
    · simp [MediaPlayer.stop_, MediaPlayer.play, set_pause_handle]
    · have hR : ¬(mp.state = VState.Playing ∨ mp.state = VState.Paused) := by
        intro h
        apply hc
        rcases (set_pause_true_active_iff mp).mpr h with h3 | h3
        · exact Or.inr h3
        · exact Or.inl h3
      simp [MediaPlayer.stop_, MediaPlayer.play, hR]

/-- C8: for every `stop()` call while a session exists, the native resource
is released exactly when the backend reports `Playing` or `Paused` (no
release otherwise), and in both cases the session reference is cleared, so
no session exists after `stop()` returns. -/
theorem stop_releases_only_when_active (s : PState) (mp : MediaPlayer)
    (hmp : s.vlcmp = some mp) :
    ((mp.state = VState.Playing ∨ mp.state = VState.Paused) →
        Ev.releaseMp mp.handle ∈ (s.stop).2) ∧
    (¬(mp.state = VState.Playing ∨ mp.state = VState.Paused) →
        hasRelease (s.stop).2 = false) ∧
    (s.stop).1.vlcmp = none := by
  obtain ⟨mp', h1, h2, h3⟩ := base_stop_session s mp hmp
  have htr : (s.stop).2 = (s.base_stop).2 ++ ((s.base_stop).1.stop_).2 := rfl
  have hrel := stop_release_trace (s.base_stop).1 mp' h1
  refine ⟨?_, ?_, ?_⟩
  · intro hact
    rw [htr, hrel, if_pos (h3.mpr hact), h2]
    simp
  · intro hina
    rw [htr, hasRelease_append, base_stop_no_release, hrel,
      if_neg (fun hx => hina (h3.mp hx))]
    rfl
  · show ((s.base_stop).1.stop_).1.vlcmp = none
    exact stop_clears_session _

/-- A playing media player, used by the concrete scenario of C8. -/
def c8Mp : MediaPlayer :=
  { handle := 0, mrl := 7, state := VState.Playing, canPause := true,
    seekable := true, position := 0, length := 9000, muted := 0 }

/-- A state with an active playing session, for C8's release case. -/
def c8State : PState := { vlcmp := some c8Mp, paused := false, song := some 7 }

/-- The same player already stopped, for C8's no-release case. -/
def c8MpB : MediaPlayer := { c8Mp with state := VState.Stopped }

/-- A state whose session reports `Stopped`, for C8's no-release case. -/
def c8StateB : PState := { vlcmp := some c8MpB, song := some 7 }

/-- C8 witness: stopping a playing session releases the native resource and
clears the session; stopping a stopped-state session performs no release. -/
theorem stop_releases_only_when_active_witness :
    Ev.releaseMp 0 ∈ (c8State.stop).2 ∧
    hasRelease (c8StateB.stop).2 = false ∧
    (c8State.stop).1.vlcmp = none := by
  have h1 := stop_releases_only_when_active c8State c8Mp rfl
  have h2 := stop_releases_only_when_active c8StateB c8MpB rfl
  exact ⟨h1.1 (Or.inl rfl), h2.2.1 (by decide), h1.2.2⟩

/-- C6: during the end-of-song sequence (the bridged "end-reached" handler
followed by the "playing" handler for the next song), every `song-ended`
signal is emitted while the externally visible current song is `none` — a
listener querying the current song from inside the handler observes `none`,
not the song that just ended — and `song-ended` for the finished song is
emitted strictly before `song-started` for the next song. -/
theorem end_of_song_nulls_current_before_signals (s : PState)
    (mp : MediaPlayer) (A B : Nat) (rest : List Nat)
    (hmp : s.vlcmp = some mp) (hend : mp.state = VState.Ended)
    (hsong : s.song = some A) (hinfo : s.info = some A)
    (hsrc : s.source = A :: B :: rest) :
    (∀ so stp obs, Ev.songEnded so stp obs ∈ (s.endOfSongSequence).2 → obs = none) ∧
    (∃ l1 l2, (s.endOfSongSequence).2 = l1 ++ Ev.songEnded (some A) false none :: l2 ∧
      Ev.songStarted (some B) ∈ l2) := by
  rcases hp : s.paused <;> rcases hq : s.vlceq with _ | e
  · have ht : (s.endOfSongSequence).2 =
        [Ev.nextEnded, Ev.songEnded (some A) false none,
         Ev.newMediaPlayer s.nextHandle B, Ev.playMp s.nextHandle,
         Ev.songStarted (some B), Ev.notifySeekable] := by
      simp [PState.endOfSongSequence, PState.event_ended_sync, PState.stop_,
        PState.end_, PState.play_, PState.event_playing_sync, PState.paused_set,
        Source.current, Source.next_ended, MediaPlayer.new, MediaPlayer.play,
        MediaPlayer.set_pause, hmp, hend, hsong, hinfo, hsrc, hp, hq]
    constructor
    · intro so stp obs hmem
      rw [ht] at hmem
      simp at hmem
      exact hmem.2.2
    · exact ⟨[Ev.nextEnded],
        [Ev.newMediaPlayer s.nextHandle B, Ev.playMp s.nextHandle,
         Ev.songStarted (some B), Ev.notifySeekable],
        by rw [ht]; rfl, by simp⟩
  · have ht : (s.endOfSongSequence).2 =
        [Ev.nextEnded, Ev.songEnded (some A) false none,
         Ev.newMediaPlayer s.nextHandle B, Ev.setEqualizer s.nextHandle e.handle,
         Ev.playMp s.nextHandle, Ev.songStarted (some B), Ev.notifySeekable] := by
      simp [PState.endOfSongSequence, PState.event_ended_sync, PState.stop_,
        PState.end_, PState.play_, PState.event_playing_sync, PState.paused_set,
        Source.current, Source.next_ended, MediaPlayer.new, MediaPlayer.play,
        MediaPlayer.set_pause, hmp, hend, hsong, hinfo, hsrc, hp, hq]
    constructor
    · intro so stp obs hmem
      rw [ht] at hmem
      simp at hmem
      exact hmem.2.2
    · exact ⟨[Ev.nextEnded],
        [Ev.newMediaPlayer s.nextHandle B, Ev.setEqualizer s.nextHandle e.handle,
         Ev.playMp s.nextHandle, Ev.songStarted (some B), Ev.notifySeekable],
        by rw [ht]; rfl, by simp⟩
  · have ht : (s.endOfSongSequence).2 =
        [Ev.nextEnded, Ev.songEnded (some A) false none,
         Ev.newMediaPlayer s.nextHandle B, Ev.playMp s.nextHandle,
         Ev.setPause s.nextHandle true, Ev.songStarted (some B),
         Ev.notifySeekable] := by
      simp [PState.endOfSongSequence, PState.event_ended_sync, PState.stop_,
        PState.end_, PState.play_, PState.event_playing_sync, PState.paused_set,
        Source.current, Source.next_ended, MediaPlayer.new, MediaPlayer.play,
        MediaPlayer.set_pause, hmp, hend, hsong, hinfo, hsrc, hp, hq]
    constructor
    · intro so stp obs hmem
      rw [ht] at hmem
      simp at hmem
      exact hmem.2.2
    · exact ⟨[Ev.nextEnded],
        [Ev.newMediaPlayer s.nextHandle B, Ev.playMp s.nextHandle,
         Ev.setPause s.nextHandle true, Ev.songStarted (some B),
         Ev.notifySeekable],
        by rw [ht]; rfl, by simp⟩
  · have ht : (s.endOfSongSequence).2 =
        [Ev.nextEnded, Ev.songEnded (some A) false none,
         Ev.newMediaPlayer s.nextHandle B, Ev.setEqualizer s.nextHandle e.handle,
         Ev.playMp s.nextHandle, Ev.setPause s.nextHandle true,
         Ev.songStarted (some B), Ev.notifySeekable] := by
      simp [PState.endOfSongSequence, PState.event_ended_sync, PState.stop_,
        PState.end_, PState.play_, PState.event_playing_sync, PState.paused_set,
        Source.current, Source.next_ended, MediaPlayer.new, MediaPlayer.play,
        MediaPlayer.set_pause, hmp, hend, hsong, hinfo, hsrc, hp, hq]
    constructor
    · intro so stp obs hmem
      rw [ht] at hmem
      simp at hmem
      exact hmem.2.2
    · exact ⟨[Ev.nextEnded],
        [Ev.newMediaPlayer s.nextHandle B, Ev.setEqualizer s.nextHandle e.handle,
         Ev.playMp s.nextHandle, Ev.setPause s.nextHandle true,
         Ev.songStarted (some B), Ev.notifySeekable],
        by rw [ht]; rfl, by simp⟩

/-- The media player whose track just reached its end, for C6's witness. -/
def c6Mp : MediaPlayer :=
  { handle := 0, mrl := 1, state := VState.Ended, canPause := true,
    seekable := true, position := 1, length := 9000, muted := 0 }

/-- The concrete C6 scenario: song 1 just ended, the source still lists
songs 1 and 2, playback is not paused and no equalizer exists. -/
def c6State : PState :=
  { vlcmp := some c6Mp, song := some 1, info := some 1, source := [1, 2],
    paused := false, nextHandle := 3 }

/-- C6 witness: the concrete end-of-song run observes `none` inside every
`song-ended` emission and orders `song-ended(1)` before `song-started(2)`. -/
theorem end_of_song_nulls_current_before_signals_witness :
    (∀ so stp obs, Ev.songEnded so stp obs ∈ (c6State.endOfSongSequence).2 →
      obs = none) ∧
    (∃ l1 l2, (c6State.endOfSongSequence).2 =
        l1 ++ Ev.songEnded (some 1) false none :: l2 ∧
      Ev.songStarted (some 2) ∈ l2) :=
  end_of_song_nulls_current_before_signals c6State c6Mp 1 2 [] rfl rfl rfl rfl rfl

end VLCBE
